import Mathlib

/-!
Shallow embedding of the y-socket.io synchronization engine.

The CRDT replica (yjs) is modelled by its contract from section 3 of the
design: document content and updates are finite sets of opaque items, so
that applying an update is set union (commutative and idempotent),
the state vector of a document is its item set, and the diff since a
state vector is set difference.  The client provider
(src/client/provider.ts), the server registry (src/server/y-socket-io.ts)
and the server room document (src/server/document.ts) are embedded as
explicit state-passing functions over record types; emitted observable
events, socket emissions and timer arming are recorded in dedicated
fields so that each handler is a pure state transition.
-/

namespace Ysio

/-- An update or document content: a finite set of opaque CRDT items. -/
abbrev Upd := Finset ℕ

/-- Y.applyUpdate: merge an update into a document (idempotent, commutative). -/
def applyUpdate (d u : Upd) : Upd := d ∪ u

/-- Y.encodeStateAsUpdate doc sv: the diff of doc since state vector sv. -/
def encodeStateAsUpdate (d sv : Finset ℕ) : Upd := d \ sv

/-- Y.mergeUpdates: merge a list of updates into one. -/
def mergeUpdates (us : List Upd) : Upd := us.foldr (· ∪ ·) ∅

/-- Observable events emitted by the client provider. -/
inductive PEvent
  | statusConnecting
  | statusConnected
  | statusDisconnected
  | connectionClose
  | connectionError
  | syncedFlag (b : Bool)
  | syncFlag (b : Bool)
deriving DecidableEq

/-- State of a SocketIOProvider (src/client/provider.ts).  Socket and
broadcast-channel emissions and the onPending invocations are recorded in
log fields; updateTimer and resyncTimer record whether the corresponding
timer is armed. -/
structure Provider where
  doc : Finset ℕ
  clientID : ℕ
  awareness : List (ℕ × ℕ)
  awarenessLocal : Option ℕ
  synced : Bool
  socketConnected : Bool
  bcconnected : Bool
  debounceTime : Option ℕ
  updateTimer : Bool
  resyncTimer : Option ℕ
  pendingUpdates : List Upd
  events : List PEvent
  sentSyncUpdates : List Upd
  bcSentSyncUpdates : List Upd
  sentSyncStep1 : List (Finset ℕ)
  sentAwareness : List ℕ
  pendingNotifies : List Bool
  unloadListener : Bool
  docListener : Bool
  awarenessListener : Bool
deriving DecidableEq

/-- The synced setter (provider.ts, set synced): only when the new value
differs does it store the value and emit the synced and sync events. -/
def setSynced (state : Bool) (p : Provider) : Provider :=
  if p.synced = state then p
  else { p with synced := state,
                events := p.events ++ [PEvent.syncedFlag state, PEvent.syncFlag state] }

/-- provider.ts onUpdateDocInner: emit sync-update on the socket and, when
the broadcast channel is connected, publish it there as well. -/
def onUpdateDocInner (update : Upd) (p : Provider) : Provider :=
  let p1 := { p with sentSyncUpdates := p.sentSyncUpdates ++ [update] }
  if p1.bcconnected
  then { p1 with bcSentSyncUpdates := p1.bcSentSyncUpdates ++ [update] }
  else p1

/-- provider.ts onUpdateDoc: ignore self-originated changes; when
debounceTime is defined, transmit the delta immediately via
onUpdateDocInner; when the update timer is armed, notify pending true,
append to the pending buffer and cancel the timer, otherwise reset the
buffer to the single delta; finally re-arm the update timer. -/
def onUpdateDoc (originIsSelf : Bool) (update : Upd) (p : Provider) : Provider :=
  if originIsSelf then p
  else
    let p1 := if p.debounceTime.isSome then onUpdateDocInner update p else p
    let p2 :=
      if p1.updateTimer then
        { p1 with pendingNotifies := p1.pendingNotifies ++ [true],
                  pendingUpdates := p1.pendingUpdates ++ [update],
                  updateTimer := false }
      else { p1 with pendingUpdates := [update] }
    { p2 with updateTimer := true }

/-- The body of the setTimeout callback armed by onUpdateDoc: merge the
pending updates, transmit the merged delta, notify pending false and
disarm the timer.  The pending buffer itself is not cleared there. -/
def fireUpdateTimer (p : Provider) : Provider :=
  if p.updateTimer then
    let p1 := onUpdateDocInner (mergeUpdates p.pendingUpdates) p
    { p1 with pendingNotifies := p1.pendingNotifies ++ [false],
              updateTimer := false }
  else p

/-- AwarenessProtocol.removeAwarenessStates: drop the entries of the
listed client ids from the awareness map. -/
def removeAwarenessStates (ids : List ℕ) (aw : List (ℕ × ℕ)) : List (ℕ × ℕ) :=
  aw.filter (fun e => decide (e.1 ∉ ids))

/-- provider.ts onSocketDisconnection: emit connection-close, set synced
to false through the setter, remove every awareness entry whose client id
differs from the document client id, then emit status disconnected. -/
def onSocketDisconnection (p : Provider) : Provider :=
  let p1 := { p with events := p.events ++ [PEvent.connectionClose] }
  let p2 := setSynced false p1
  let ids := (p2.awareness.map Prod.fst).filter (fun c => decide (c ≠ p2.clientID))
  let p3 := { p2 with awareness := removeAwarenessStates ids p2.awareness }
  { p3 with events := p3.events ++ [PEvent.statusDisconnected] }

/-- The client listener for sync-step-1 (provider.ts initSyncListeners):
answer through the acknowledgment callback with the diff of the local
document since the received state vector, then set synced to true. -/
def clientOnSyncStep1 (stateVector : Finset ℕ) (p : Provider) : Upd × Provider :=
  (encodeStateAsUpdate p.doc stateVector, setSynced true p)

/-- provider.ts onSocketConnection: emit status connected, send
sync-step-1 with the local state vector, send the local awareness state
when non-null, and arm the resync interval when configured positive. -/
def onSocketConnection (resyncInterval : Int) (p : Provider) : Provider :=
  let p1 := { p with events := p.events ++ [PEvent.statusConnected],
                     socketConnected := true }
  let p2 := { p1 with sentSyncStep1 := p1.sentSyncStep1 ++ [p1.doc] }
  let p3 := if p2.awarenessLocal.isSome
            then { p2 with sentAwareness := p2.sentAwareness ++ [p2.clientID] }
            else p2
  if 0 < resyncInterval
  then { p3 with resyncTimer := some resyncInterval.toNat }
  else p3

/-- provider.ts onSocketConnectionError: emit connection-error. -/
def onSocketConnectionError (p : Provider) : Provider :=
  { p with events := p.events ++ [PEvent.connectionError] }

/-- The server connection middleware installed on the yjs namespaces by
y-socket-io.ts at setup: with no
authenticate callback the connection is allowed; otherwise it is allowed
exactly when the callback returns true, and rejected with an Unauthorized
error otherwise. -/
def authMiddleware (authenticate : Option (ℕ → Bool)) (handshake : ℕ) :
    Except String Unit :=
  match authenticate with
  | none => Except.ok ()
  | some f => if f handshake then Except.ok () else Except.error "Unauthorized"

/-- One client join attempt: the transport delivers a middleware success
as the connect event (handled by onSocketConnection) and a middleware
error as the connect-error event (handled by onSocketConnectionError). -/
def attemptJoin (authenticate : Option (ℕ → Bool)) (handshake : ℕ)
    (resyncInterval : Int) (p : Provider) : Provider :=
  match authMiddleware authenticate handshake with
  | .ok _ => onSocketConnection resyncInterval p
  | .error _ => onSocketConnectionError p

/-- provider.ts disconnect: when the socket is connected, leave the
broadcast channel and close the socket; otherwise a no-op. -/
def disconnectProv (p : Provider) : Provider :=
  if p.socketConnected then
    { p with bcconnected := false, socketConnected := false }
  else p

/-- provider.ts destroy: clear the resync interval, disconnect, detach
the unload handler and the awareness and document listeners.  The
debounce update timer is not touched. -/
def destroy (p : Provider) : Provider :=
  let p1 := { p with resyncTimer := none }
  let p2 := disconnectProv p1
  { p2 with unloadListener := false,
            awarenessListener := false,
            docListener := false }

/-- Lookup in an association list keyed by room name (Map.get). -/
def alistLookup (k : String) : List (String × ℕ) → Option ℕ
  | [] => none
  | e :: es => if e.1 = k then some e.2 else alistLookup k es

/-- Insert or replace in an association list keyed by room name (Map.set). -/
def alistInsert (k : String) (v : ℕ) : List (String × ℕ) → List (String × ℕ)
  | [] => [(k, v)]
  | e :: es => if e.1 = k then (k, v) :: es else e :: alistInsert k v es

/-- Number of entries registered under a key. -/
def keyCount (k : String) (l : List (String × ℕ)) : ℕ :=
  (l.filter (fun e => decide (e.1 = k))).length

/-- State of the server registry (y-socket-io.ts with the in-memory
MemoryDocumentsController).  Document instances are identified by the
order of their construction: nextId counts constructed Document replicas.
bound logs bindState calls of the persistence binder, loaded logs
document-loaded emissions, gcLog logs the gc flag assignments. -/
structure Reg where
  docs : List (String × ℕ)
  nextId : ℕ
  persistenceEnabled : Bool
  bound : List (String × ℕ)
  loaded : List ℕ
  gcLog : List (ℕ × Bool)
deriving DecidableEq

/-- y-socket-io.ts initDocument: take the registered document for the
name or construct a fresh one, assign its gc flag, and when the name is
not yet registered bind persistence (when enabled), register it and emit
document-loaded. -/
def initDocument (name : String) (gc : Bool) (s : Reg) : ℕ × Reg :=
  let (docId, s0) :=
    match alistLookup name s.docs with
    | some d => (d, s)
    | none => (s.nextId, { s with nextId := s.nextId + 1 })
  let s1 := { s0 with gcLog := s0.gcLog ++ [(docId, gc)] }
  if (alistLookup name s1.docs).isSome then (docId, s1)
  else
    let s2 := if s1.persistenceEnabled
              then { s1 with bound := s1.bound ++ [(name, docId)] }
              else s1
    let s3 := { s2 with docs := alistInsert name docId s2.docs }
    (docId, { s3 with loaded := s3.loaded ++ [docId] })

/-- Local state of one in-flight initDocument call, for the interleaved
execution model: pc is the position between the await points of
initDocument (0: before the controller get, 1: before the controller has,
2: before the controller set, 3: returned), docId the locally chosen
instance and seen the result of the has check. -/
structure Thread where
  pc : ℕ
  docId : ℕ
  seen : Bool
deriving DecidableEq

/-- One atomic segment of initDocument between its await points, without
persistence: resolve the get (constructing a fresh instance when absent),
then assign gc and resolve the has check, then conditionally register. -/
def stepInit (name : String) (gc : Bool) (t : Thread) (s : Reg) : Thread × Reg :=
  match t.pc with
  | 0 =>
    match alistLookup name s.docs with
    | some d => ({ t with pc := 1, docId := d }, s)
    | none => ({ t with pc := 1, docId := s.nextId },
               { s with nextId := s.nextId + 1 })
  | 1 =>
    ({ t with pc := 2, seen := (alistLookup name s.docs).isSome },
     { s with gcLog := s.gcLog ++ [(t.docId, gc)] })
  | 2 =>
    if t.seen then ({ t with pc := 3 }, s)
    else ({ t with pc := 3 },
          { s with docs := alistInsert name t.docId s.docs,
                   loaded := s.loaded ++ [t.docId] })
  | _ => (t, s)

/-- Run two concurrent initDocument calls under a schedule: true steps
the first call, false the second. -/
def runSched (name : String) (gc : Bool) :
    List Bool → Thread → Thread → Reg → Reg
  | [], _, _, s => s
  | c :: rest, ta, tb, s =>
    if c then
      let r := stepInit name gc ta s
      runSched name gc rest r.1 tb r.2
    else
      let r := stepInit name gc tb s
      runSched name gc rest ta r.1 r.2

/-- All Bool lists of a given length. -/
def boolLists : ℕ → List (List Bool)
  | 0 => [[]]
  | n + 1 => ((boolLists n).map (true :: ·)) ++ ((boolLists n).map (false :: ·))

/-- All interleavings of two three-step initDocument executions. -/
def allScheds : List (List Bool) :=
  (boolLists 6).filter (fun l => decide (l.count true = 3))

/-- The empty registry without persistence. -/
def regEmpty : Reg :=
  { docs := [], nextId := 0, persistenceEnabled := false,
    bound := [], loaded := [], gcLog := [] }

/-- Registry-level events of the server. -/
inductive SEvent
  | allConnectionsClosed (docId : ℕ)
deriving DecidableEq

/-- Server lifecycle state for the disconnect handling: the registered
documents, whether level persistence is configured, the writeState
flushes, the documents whose update listeners are still attached, the
namespaces whose sockets were force-disconnected, and the emitted
registry events. -/
structure Srv where
  docs : List (String × ℕ)
  persistenceEnabled : Bool
  flushed : List String
  listenersAttached : List ℕ
  socketsDisconnected : List ℕ
  sevents : List SEvent
deriving DecidableEq

/-- document.ts destroy for a document as the server constructs it:
initDocument passes the callback record as the third positional argument
of the four-parameter Document constructor, so at runtime it binds to
the localOnly parameter and the callbacks field stays undefined.  The
callbacks-question-mark-onDestroy guard in destroy therefore skips the
onDestroy invocation, and the registry deletion and document-destroy
emission living only inside that never-registered closure do not run:
destroy detaches the two update listeners, disconnects the namespace
sockets, and leaves the registry untouched. -/
def docDestroy (docId : ℕ) (s : Srv) : Srv :=
  let s1 := { s with listenersAttached :=
                s.listenersAttached.filter (fun i => decide (i ≠ docId)) }
  { s1 with socketsDisconnected := s1.socketsDisconnected ++ [docId] }

/-- y-socket-io.ts initSocketListeners, the disconnect handler: when no
socket remains in the namespace, emit all-document-connections-closed,
and only when persistence is configured, flush via writeState and then
destroy the document. -/
def onLastSocketDisconnect (remaining : ℕ) (name : String) (docId : ℕ)
    (s : Srv) : Srv :=
  if remaining = 0 then
    let s1 := { s with sevents := s.sevents ++ [SEvent.allConnectionsClosed docId] }
    if s1.persistenceEnabled then
      let s2 := { s1 with flushed := s1.flushed ++ [name] }
      docDestroy docId s2
    else s1
  else s

/-- Lookup of the stored update history of a room in the durable store. -/
def storeLookup (k : String) : List (String × List Upd) → List Upd
  | [] => []
  | e :: es => if e.1 = k then e.2 else storeLookup k es

/-- Append one update to the durable history of a room (ldb.storeUpdate). -/
def storeAppend (k : String) (u : Upd) :
    List (String × List Upd) → List (String × List Upd)
  | [] => [(k, [u])]
  | e :: es => if e.1 = k then (k, e.2 ++ [u]) :: es else e :: storeAppend k u es

/-- ldb.getYDoc: the document reconstructed from the stored history of a
room, the merge of all stored updates. -/
def getYDocContent (k : String) (store : List (String × List Upd)) : Finset ℕ :=
  mergeUpdates (storeLookup k store)

/-- Result of the persistence bindState call: the document content after
binding, the durable store after binding, and whether the durable-append
update hook was registered. -/
structure BindResult where
  doc : Finset ℕ
  store : List (String × List Upd)
  hookRegistered : Bool
deriving DecidableEq

/-- y-socket-io.ts initLevelDB, the bindState closure: read the persisted
document of the room, persist the current content of the fresh document,
apply the persisted state to the document, and register an update
listener that appends every subsequent update to the store. -/
def bindState (docName : String) (ydoc : Finset ℕ)
    (store : List (String × List Upd)) : BindResult :=
  let persistedYdoc := getYDocContent docName store
  let newUpdates := encodeStateAsUpdate ydoc ∅
  let store1 := storeAppend docName newUpdates store
  let doc1 := applyUpdate ydoc (encodeStateAsUpdate persistedYdoc ∅)
  { doc := doc1, store := store1, hookRegistered := true }

/-- The update listener registered by bindState: append the update to the
durable history of the room. -/
def hookOnUpdate (docName : String) (u : Upd)
    (store : List (String × List Upd)) : List (String × List Upd) :=
  storeAppend docName u store

/-- Emissions of the server room document to its namespace. -/
inductive SrvEmit
  | syncUpdateAll (u : Upd)
  | syncUpdateLocal (u : Upd)
  | awarenessUpdateAll (u : ℕ)
deriving DecidableEq

/-- State of a server room document (document.ts): the localOnly flag,
the warnings logged by the catch blocks, the namespace emissions, the
attachment state of its two listeners and whether its namespace sockets
were force-disconnected. -/
structure SDoc where
  localOnly : Option Bool
  warnLog : List ℕ
  emitted : List SrvEmit
  listenerDoc : Bool
  listenerAwareness : Bool
  socketsDisconnected : Bool
deriving DecidableEq

/-- Invocation of an optional user callback inside the try/catch of
document.ts: absent or returning callbacks leave the state unchanged, a
throwing callback has its error logged by console.warn. -/
def runCallback (cb : Option (Except ℕ Unit)) (d : SDoc) : SDoc :=
  match cb with
  | none => d
  | some (Except.ok _) => d
  | some (Except.error e) => { d with warnLog := d.warnLog ++ [e] }

/-- document.ts onUpdateDoc: invoke the onUpdate callback guarded by
try/catch, then emit sync-update to the local sockets when localOnly is
set and true, and to the whole namespace otherwise. -/
def srvOnUpdateDoc (cb : Option (Except ℕ Unit)) (u : Upd) (d : SDoc) : SDoc :=
  let d1 := runCallback cb d
  match d1.localOnly with
  | some true => { d1 with emitted := d1.emitted ++ [SrvEmit.syncUpdateLocal u] }
  | _ => { d1 with emitted := d1.emitted ++ [SrvEmit.syncUpdateAll u] }

/-- document.ts onUpdateAwareness: invoke the onChangeAwareness callback
guarded by try/catch, then emit awareness-update to the namespace. -/
def srvOnUpdateAwareness (cb : Option (Except ℕ Unit)) (u : ℕ) (d : SDoc) : SDoc :=
  let d1 := runCallback cb d
  { d1 with emitted := d1.emitted ++ [SrvEmit.awarenessUpdateAll u] }

/-- document.ts destroy at the level of one document: invoke the
onDestroy callback guarded by try/catch, then detach both update
listeners and disconnect the namespace sockets. -/
def destroyDocument (cb : Option (Except ℕ Unit)) (d : SDoc) : SDoc :=
  let d1 := runCallback cb d
  { d1 with listenerAwareness := false,
            listenerDoc := false,
            socketsDisconnected := true }

/-- A freshly constructed provider with the given debounce configuration,
before any connection: empty document, no pending state, no armed timer. -/
def freshProvider (dt : Option ℕ) : Provider :=
  { doc := ∅, clientID := 1, awareness := [(1, 10)], awarenessLocal := some 10,
    synced := false, socketConnected := false, bcconnected := false,
    debounceTime := dt, updateTimer := false, resyncTimer := none,
    pendingUpdates := [], events := [], sentSyncUpdates := [],
    bcSentSyncUpdates := [], sentSyncStep1 := [], sentAwareness := [],
    pendingNotifies := [], unloadListener := true, docListener := true,
    awarenessListener := true }

/-- A first local edit delta. -/
def updA : Upd := {1}

/-- A second local edit delta. -/
def updB : Upd := {2}

/-- A provider with both the resync interval and the debounce update
timer armed. -/
def provArmed : Provider :=
  { freshProvider (some 300) with updateTimer := true, resyncTimer := some 5,
                                  pendingUpdates := [updA] }

/-- The provider trace of claim C1 at a configured debounce window:
two local edits within one window followed by the timer callback. -/
def c1Trace : Provider :=
  fireUpdateTimer (onUpdateDoc false updB (onUpdateDoc false updA
    (freshProvider (some 300))))

/-- A server lifecycle state without persistence holding one registered
room document with its listeners attached. -/
def srvNoPersist : Srv :=
  { docs := [("R", 0)], persistenceEnabled := false, flushed := [],
    listenersAttached := [0], socketsDisconnected := [], sevents := [] }

/-- A server lifecycle state with persistence holding one registered
room document with its listeners attached. -/
def srvPersist : Srv :=
  { srvNoPersist with persistenceEnabled := true }

/-- A registry already holding an instance for room R. -/
def regR : Reg :=
  { docs := [("R", 7)], nextId := 8, persistenceEnabled := true,
    bound := [("R", 7)], loaded := [7], gcLog := [(7, true)] }

end Ysio

namespace Ysio

/-- C1: in src/client/provider.ts onUpdateDoc, the immediate transmission
is guarded by debounceTime being defined rather than undefined, so with a
configured debounce window every delta is transmitted immediately in
addition to the merged delta transmitted when the timer fires, the
pending buffer survives the flush, and the pending-notify callback is
first invoked only at the second buffered edit; with no window configured
nothing is transmitted until the zero-delay timer fires.  Evaluated on
two edits within one window. -/
theorem C1_debounce_inverted_guard :
    c1Trace.sentSyncUpdates = [updA, updB, updA ∪ updB] ∧
    c1Trace.pendingUpdates = [updA, updB] ∧
    c1Trace.pendingNotifies = [true, false] ∧
    (onUpdateDoc false updA (freshProvider none)).sentSyncUpdates = [] := by
  decide

/-- C7: the client sync-step-1 listener answers through the
acknowledgment callback with the diff of the local document since the
received state vector and then sets the synced flag to true. -/
theorem C7_sync_step1_ack_and_synced (p : Provider) (sv : Finset ℕ) :
    (clientOnSyncStep1 sv p).1 = p.doc \ sv ∧
    (clientOnSyncStep1 sv p).2.synced = true := by
  refine ⟨rfl, ?_⟩
  by_cases h : p.synced = true <;> simp [clientOnSyncStep1, setSynced, h]

/-- C8 counterexample: destroying a provider whose debounce update timer
is armed leaves that timer armed, so destroy does not cancel both timers. -/
theorem C8_counterexample_update_timer_survives :
    (destroy provArmed).updateTimer = true ∧
    (destroy provArmed).resyncTimer = none := by
  decide

/-- C8 amended: destroy cancels the resync timer unconditionally and
idempotently (a second destroy is a no-op), but leaves the debounce
update timer untouched, so a pending debounce timer stays armed. -/
theorem C8_destroy_cancels_resync_only (p : Provider) :
    (destroy p).resyncTimer = none ∧
    destroy (destroy p) = destroy p ∧
    (destroy p).updateTimer = p.updateTimer := by
  by_cases h : p.socketConnected <;> simp [destroy, disconnectProv, h]

/-- C10: the synced setter always stores the assigned value, appends the
synced and sync events exactly once when the value changes and nothing
when it is unchanged, and repeated identical assignments are absorbed. -/
theorem C10_synced_setter_no_duplicates (p : Provider) (b : Bool) :
    (setSynced b p).synced = b ∧
    (setSynced b p).events =
      p.events ++ (if p.synced = b then [] else
        [PEvent.syncedFlag b, PEvent.syncFlag b]) ∧
    setSynced b (setSynced b p) = setSynced b p ∧
    setSynced p.synced p = p := by
  by_cases h : p.synced = b <;> simp [setSynced, h]

theorem storeLookup_append_self (k : String) (u : Upd)
    (l : List (String × List Upd)) :
    storeLookup k (storeAppend k u l) = storeLookup k l ++ [u] := by
  induction l with
  | nil => simp [storeAppend, storeLookup]
  | cons e es ih =>
    by_cases h : e.1 = k <;> simp [storeAppend, storeLookup, h, ih]

/-- C4: bindState reads the prior durable history of the room and applies
it to the fresh replica, persists the pre-binding content of the fresh
replica, and registers the hook appending every subsequent update to the
durable store, all before returning. -/
theorem C4_bindState_contract (name : String) (ydoc : Finset ℕ)
    (store : List (String × List Upd)) :
    (bindState name ydoc store).doc = ydoc ∪ getYDocContent name store ∧
    storeLookup name (bindState name ydoc store).store =
      storeLookup name store ++ [ydoc] ∧
    (bindState name ydoc store).hookRegistered = true ∧
    (∀ (u : Upd) (st : List (String × List Upd)),
      storeLookup name (hookOnUpdate name u st) = storeLookup name st ++ [u]) := by
  refine ⟨?_, ?_, rfl, ?_⟩
  · simp [bindState, applyUpdate, encodeStateAsUpdate]
  · simp [bindState, encodeStateAsUpdate, storeLookup_append_self]
  · intro u st
    exact storeLookup_append_self name u st

/-- C9: a throwing user callback is caught and logged, and the
surrounding protocol step completes as if the callback were absent: a
throwing onUpdate still rebroadcasts sync-update to the namespace, a
throwing onChangeAwareness still rebroadcasts awareness-update, and a
throwing onDestroy still detaches the listeners and disconnects the
sockets. -/
theorem C9_throwing_callbacks_contained (e : ℕ) (u : Upd) (a : ℕ) (d : SDoc) :
    (srvOnUpdateDoc (some (Except.error e)) u d).emitted =
      (srvOnUpdateDoc none u d).emitted ∧
    (srvOnUpdateDoc (some (Except.error e)) u d).warnLog = d.warnLog ++ [e] ∧
    (srvOnUpdateAwareness (some (Except.error e)) a d).emitted =
      (srvOnUpdateAwareness none a d).emitted ∧
    (srvOnUpdateAwareness (some (Except.error e)) a d).warnLog =
      d.warnLog ++ [e] ∧
    (destroyDocument (some (Except.error e)) d).listenerDoc = false ∧
    (destroyDocument (some (Except.error e)) d).listenerAwareness = false ∧
    (destroyDocument (some (Except.error e)) d).socketsDisconnected = true ∧
    (destroyDocument (some (Except.error e)) d).warnLog = d.warnLog ++ [e] := by
  rcases hl : d.localOnly with _ | b
  · simp [srvOnUpdateDoc, srvOnUpdateAwareness, destroyDocument, runCallback, hl]
  · cases b <;>
      simp [srvOnUpdateDoc, srvOnUpdateAwareness, destroyDocument, runCallback, hl]

/-- C5: a join attempt whose authentication check returns false is
rejected by the server middleware with an Unauthorized error rather than
silently dropped, the provider emits exactly a connection-error event,
and the provider does not become connected from that attempt. -/
theorem C5_auth_rejection_surfaces_error (f : ℕ → Bool) (h : ℕ) (ri : Int)
    (p : Provider) (hf : f h = false) :
    authMiddleware (some f) h = Except.error "Unauthorized" ∧
    attemptJoin (some f) h ri p =
      { p with events := p.events ++ [PEvent.connectionError] } ∧
    (attemptJoin (some f) h ri p).socketConnected = p.socketConnected := by
  refine ⟨?_, ?_, ?_⟩ <;>
    simp [authMiddleware, attemptJoin, onSocketConnectionError, hf]

/-- Discharges the hypothesis of the C5 theorem at a concrete rejecting
authentication callback and a concrete disconnected provider. -/
theorem C5_witness :
    authMiddleware (some fun _ => false) 0 = Except.error "Unauthorized" ∧
    attemptJoin (some fun _ => false) 0 (-1) (freshProvider none) =
      { freshProvider none with
          events := (freshProvider none).events ++ [PEvent.connectionError] } ∧
    (attemptJoin (some fun _ => false) 0 (-1)
        (freshProvider none)).socketConnected =
      (freshProvider none).socketConnected :=
  C5_auth_rejection_surfaces_error (fun _ => false) 0 (-1) (freshProvider none) rfl

theorem removeAwareness_keeps_own (cid : ℕ) (aw : List (ℕ × ℕ)) :
    removeAwarenessStates
        ((aw.map Prod.fst).filter (fun c => !decide (c = cid))) aw =
      aw.filter (fun e => decide (e.1 = cid)) := by
  unfold removeAwarenessStates
  refine List.filter_congr ?_
  intro e he
  by_cases h : e.1 = cid
  · simp [h, List.mem_filter]
  · simp [h, List.mem_filter, List.mem_map]
    exact ⟨e.2, he⟩

/-- C6: on transport disconnection the provider emits connection-close,
sets synced to false, removes exactly the awareness entries whose client
id differs from the document client id (keeping its own entries
unchanged), and finally emits status disconnected. -/
theorem C6_disconnect_cleans_remote_awareness (p : Provider) :
    (onSocketDisconnection p).awareness =
      p.awareness.filter (fun e => decide (e.1 = p.clientID)) ∧
    (onSocketDisconnection p).synced = false ∧
    (onSocketDisconnection p).events =
      p.events ++ [PEvent.connectionClose] ++
        (if p.synced then [PEvent.syncedFlag false, PEvent.syncFlag false]
         else []) ++
      [PEvent.statusDisconnected] := by
  by_cases h : p.synced <;>
    simp [onSocketDisconnection, setSynced, h, removeAwareness_keeps_own]

/-- C3 counterexample: without persistence, the last peer disconnecting
leaves the room document alive (registered, listeners attached, no
socket disconnected, only all-document-connections-closed emitted); and
even with persistence, after the last peer disconnects the document is
still registered, because the registry deletion lives in an onDestroy
callback that the constructor call never wires up. -/
theorem C3_counterexample_no_destroy_no_eviction :
    (onLastSocketDisconnect 0 "R" 0 srvNoPersist).docs = [("R", 0)] ∧
    (onLastSocketDisconnect 0 "R" 0 srvNoPersist).listenersAttached = [0] ∧
    (onLastSocketDisconnect 0 "R" 0 srvNoPersist).socketsDisconnected = [] ∧
    (onLastSocketDisconnect 0 "R" 0 srvNoPersist).sevents =
      [SEvent.allConnectionsClosed 0] ∧
    (onLastSocketDisconnect 0 "R" 0 srvPersist).docs = [("R", 0)] := by
  decide

/-- C3 amended: only when persistence is enabled does the last peer
disconnecting destroy the document, after the persistence flush:
destruction disconnects the namespace sockets and detaches the update
listeners, but the document is not removed from the registry, since the
onDestroy callback holding the registry deletion is never registered. -/
theorem C3_last_disconnect_destroys_with_persistence (name : String)
    (docId : ℕ) (s : Srv) (hp : s.persistenceEnabled = true) :
    (onLastSocketDisconnect 0 name docId s).flushed = s.flushed ++ [name] ∧
    (onLastSocketDisconnect 0 name docId s).socketsDisconnected =
      s.socketsDisconnected ++ [docId] ∧
    docId ∉ (onLastSocketDisconnect 0 name docId s).listenersAttached ∧
    (onLastSocketDisconnect 0 name docId s).docs = s.docs ∧
    (onLastSocketDisconnect 0 name docId s).sevents =
      s.sevents ++ [SEvent.allConnectionsClosed docId] := by
  simp [onLastSocketDisconnect, hp, docDestroy, List.mem_filter]

/-- Discharges the hypothesis of the amended C3 theorem at a concrete
persistent server state. -/
theorem C3_witness :
    (onLastSocketDisconnect 0 "R" 0 srvPersist).flushed =
      srvPersist.flushed ++ ["R"] ∧
    (onLastSocketDisconnect 0 "R" 0 srvPersist).socketsDisconnected =
      srvPersist.socketsDisconnected ++ [0] ∧
    0 ∉ (onLastSocketDisconnect 0 "R" 0 srvPersist).listenersAttached ∧
    (onLastSocketDisconnect 0 "R" 0 srvPersist).docs = srvPersist.docs ∧
    (onLastSocketDisconnect 0 "R" 0 srvPersist).sevents =
      srvPersist.sevents ++ [SEvent.allConnectionsClosed 0] :=
  C3_last_disconnect_destroys_with_persistence "R" 0 srvPersist rfl

theorem initDocument_existing (s : Reg) (name : String) (gc : Bool) (d : ℕ)
    (h : alistLookup name s.docs = some d) :
    initDocument name gc s = (d, { s with gcLog := s.gcLog ++ [(d, gc)] }) := by
  simp [initDocument, h]

theorem initDocument_fresh (s : Reg) (name : String) (gc : Bool)
    (h : alistLookup name s.docs = none) :
    initDocument name gc s =
      (s.nextId,
        { s with nextId := s.nextId + 1,
                 gcLog := s.gcLog ++ [(s.nextId, gc)],
                 bound := if s.persistenceEnabled
                          then s.bound ++ [(name, s.nextId)] else s.bound,
                 docs := alistInsert name s.nextId s.docs,
                 loaded := s.loaded ++ [s.nextId] }) := by
  cases hper : s.persistenceEnabled <;> simp [initDocument, h, hper]

theorem alistLookup_insert_self (k : String) (v : ℕ) (l : List (String × ℕ)) :
    alistLookup k (alistInsert k v l) = some v := by
  induction l with
  | nil => simp [alistInsert, alistLookup]
  | cons e es ih =>
    by_cases h : e.1 = k <;> simp [alistInsert, alistLookup, h, ih]

theorem alistInsert_of_lookup_none (k : String) (v : ℕ)
    (l : List (String × ℕ)) (h : alistLookup k l = none) :
    alistInsert k v l = l ++ [(k, v)] := by
  induction l with
  | nil => simp [alistInsert]
  | cons e es ih =>
    by_cases he : e.1 = k
    · simp [alistLookup, he] at h
    · simp [alistLookup, he] at h
      simp [alistInsert, he, ih h]

theorem keyCount_append (k : String) (v : ℕ) (l : List (String × ℕ)) :
    keyCount k (l ++ [(k, v)]) = keyCount k l + 1 := by
  simp [keyCount, List.filter_append]

theorem keyCount_of_lookup_none (k : String) (l : List (String × ℕ))
    (h : alistLookup k l = none) : keyCount k l = 0 := by
  induction l with
  | nil => simp [keyCount]
  | cons e es ih =>
    by_cases he : e.1 = k
    · simp [alistLookup, he] at h
    · simp [alistLookup, he] at h
      simpa [keyCount, he] using ih h

/-- C2: initDocument is idempotent per room name: with an instance
already registered it returns that instance and does not construct a
replica, bind persistence, register, or emit document-loaded again; two
successive first arrivals for a fresh name return one and the same
instance and leave exactly one instance registered; and under every
interleaving of two concurrent first arrivals for one room, exactly one
instance ends up registered for that room. -/
theorem C2_initDocument_idempotent :
    (∀ (s : Reg) (name : String) (gc : Bool) (d : ℕ),
      alistLookup name s.docs = some d →
        (initDocument name gc s).1 = d ∧
        (initDocument name gc s).2.docs = s.docs ∧
        (initDocument name gc s).2.nextId = s.nextId ∧
        (initDocument name gc s).2.bound = s.bound ∧
        (initDocument name gc s).2.loaded = s.loaded) ∧
    (∀ (s : Reg) (name : String) (gc : Bool),
      alistLookup name s.docs = none →
        (initDocument name gc (initDocument name gc s).2).1 =
          (initDocument name gc s).1 ∧
        keyCount name (initDocument name gc (initDocument name gc s).2).2.docs
          = 1) ∧
    (∀ sched ∈ allScheds,
      keyCount "R"
        (runSched "R" true sched ⟨0, 0, false⟩ ⟨0, 0, false⟩ regEmpty).docs
        = 1) := by
  refine ⟨?_, ?_, ?_⟩
  · intro s name gc d h
    simp [initDocument_existing s name gc d h]
  · intro s name gc h
    rw [initDocument_fresh s name gc h]
    rw [initDocument_existing _ name gc s.nextId (by simp [alistLookup_insert_self])]
    refine ⟨rfl, ?_⟩
    show keyCount name (alistInsert name s.nextId s.docs) = 1
    rw [alistInsert_of_lookup_none name s.nextId s.docs h, keyCount_append,
        keyCount_of_lookup_none name s.docs h]
  · decide

/-- Discharges the hypotheses of the C2 theorem: the registered-instance
case at a registry holding room R, the sequential double first arrival at
a fresh name, and one concrete interleaving of two first arrivals. -/
theorem C2_witness :
    (initDocument "R" true regR).1 = 7 ∧
    (initDocument "S" true (initDocument "S" true regR).2).1 =
      (initDocument "S" true regR).1 ∧
    keyCount "R"
      (runSched "R" true [true, true, true, false, false, false]
        ⟨0, 0, false⟩ ⟨0, 0, false⟩ regEmpty).docs = 1 :=
  ⟨(C2_initDocument_idempotent.1 regR "R" true 7 (by decide)).1,
   (C2_initDocument_idempotent.2.1 regR "S" true (by decide)).1,
   C2_initDocument_idempotent.2.2 [true, true, true, false, false, false]
     (by decide)⟩

end Ysio
